import Mathlib

/-!
Verification development for the AssetBridge authentication subsystem.

The definitions below are a shallow embedding of the TypeScript source:

* Password Policy Engine  — packages/backend/src/utils/password.ts
  (validatePassword, generatePassword, calculatePasswordStrength)
* Token Service           — packages/backend/src/utils/jwt.ts
  (generateToken, verifyToken, extractTokenFromHeader), over a model of
  the external jsonwebtoken library
* Access Gate             — packages/backend/src/middleware/auth.ts
  (authenticate)
* Auth State Machine      — packages/backend/src/controllers/authController.ts
  (login, getCurrentUser, changePassword)
* Provisioning / CRUD     — packages/backend/src/controllers/userController.ts
  (getUsers, createUser, getUserById, updateUser, deleteUser)

Machine integers are modelled as Nat (timestamps in seconds, status codes),
strings as Lean String, fallible operations as Except, and the Mongo user
collection as a list of records threaded through each operation.
Randomness (crypto.randomInt, the shuffle, bcrypt salts, fresh ObjectIds)
is passed in explicitly as parameters.
-/

namespace AssetBridge

/-! ## Password Policy Engine (utils/password.ts) -/

/-- Character set `'ABCDEFGHIJKLMNOPQRSTUVWXYZ'` used by generatePassword. -/
def uppercaseChars : List Char := "ABCDEFGHIJKLMNOPQRSTUVWXYZ".toList

/-- Character set `'abcdefghijklmnopqrstuvwxyz'` used by generatePassword. -/
def lowercaseChars : List Char := "abcdefghijklmnopqrstuvwxyz".toList

/-- Character set `'0123456789'` used by generatePassword. -/
def numberChars : List Char := "0123456789".toList

/-- Character set `'!@#$%^&*'` used by generatePassword. -/
def specialGenChars : List Char := "!@#$%^&*".toList

/-- `allChars = uppercase + lowercase + numbers + special` (length 70). -/
def allChars : List Char :=
  uppercaseChars ++ lowercaseChars ++ numberChars ++ specialGenChars

/-- The regex test `/[A-Z]/.test password` on a single character. -/
def isUpperAZ (c : Char) : Bool := 'A' ≤ c && c ≤ 'Z'

/-- The regex test `/[a-z]/.test password` on a single character. -/
def isLowerAZ (c : Char) : Bool := 'a' ≤ c && c ≤ 'z'

/-- The regex test `/[0-9]/.test password` on a single character. -/
def isDigit09 (c : Char) : Bool := '0' ≤ c && c ≤ '9'

/-- The special characters accepted by validatePassword's regex
`[!@#$%^&*()_+\-=[\]{};':"\\|,.<>/?]` (braces, single quote, double quote
and backslash written via their character codes). -/
def specialValidationChars : List Char :=
  ['!', '@', '#', '$', '%', '^', '&', '*', '(', ')', '_', '+', '-', '=',
   '[', ']', Char.ofNat 123, Char.ofNat 125, ';', Char.ofNat 39, ':',
   Char.ofNat 34, Char.ofNat 92, '|', ',', '.', '<', '>', '/', '?']

/-- Membership test for the validation special-character class. -/
def isSpecialValidation (c : Char) : Bool := specialValidationChars.contains c

/-- `PasswordValidationError { field, message }` from utils/password.ts. -/
structure PasswordValidationError where
  field : String
  message : String
deriving Repr, DecidableEq

/-- `validatePassword`: the five checks push their violation descriptors in
source order (length, uppercase, lowercase, number, special character);
the sequential pushes are rendered as an ordered concatenation. -/
def validatePassword (password : String) : List PasswordValidationError :=
  (if password.length < 8 then
    [⟨"password", "Password must be at least 8 characters long"⟩] else []) ++
  (if password.toList.any isUpperAZ then [] else
    [⟨"password", "Password must contain at least one uppercase letter"⟩]) ++
  (if password.toList.any isLowerAZ then [] else
    [⟨"password", "Password must contain at least one lowercase letter"⟩]) ++
  (if password.toList.any isDigit09 then [] else
    [⟨"password", "Password must contain at least one number"⟩]) ++
  (if password.toList.any isSpecialValidation then [] else
    [⟨"password", "Password must contain at least one special character"⟩])

/-- The 16 characters assembled by `generatePassword` before the shuffle:
one guaranteed character from each class (indices chosen by
`crypto.randomInt(0, set.length)`, hence the `Fin` bounds) followed by 12
characters drawn from `allChars`.  The final password is the result of the
random shuffle, i.e. an arbitrary permutation of this list. -/
def generatePasswordChars (iU iL : Fin 26) (iN : Fin 10) (iS : Fin 8)
    (rest : Fin 12 → Fin 70) : List Char :=
  uppercaseChars.getD iU 'A' :: lowercaseChars.getD iL 'a' ::
    numberChars.getD iN '0' :: specialGenChars.getD iS '!' ::
    List.ofFn (fun k => allChars.getD (rest k) '!')

/-- `calculatePasswordStrength`: length tiers and class coverage, capped at 4. -/
def calculatePasswordStrength (password : String) : Nat :=
  let s0 := 0
  let s1 := if password.length ≥ 8 then s0 + 1 else s0
  let s2 := if password.length ≥ 12 then s1 + 1 else s1
  let s3 := if password.toList.any isUpperAZ && password.toList.any isLowerAZ
    then s2 + 1 else s2
  let s4 := if password.toList.any isDigit09 then s3 + 1 else s3
  let s5 := if password.toList.any isSpecialValidation then s4 + 1 else s4
  min s5 4

/-! ## Token Service (utils/jwt.ts) over a model of jsonwebtoken -/

/-- `JwtPayload` from the shared types: userId, email, iat, exp. -/
structure JwtPayload where
  userId : String
  email : String
  iat : Nat
  exp : Nat
deriving Repr, DecidableEq

/-- A token string on the wire, as the jsonwebtoken library classifies it:
either not a structurally valid JWT at all, or a signed triple of payload,
timestamps and the secret that produced the signature. -/
inductive JwtString
  | malformed (raw : String)
  | signed (userId email : String) (iat exp : Nat) (secret : String)
deriving Repr, DecidableEq

/-- The errors `jwt.verify` can throw: `JsonWebTokenError` for a malformed
token or invalid signature, `TokenExpiredError` for a structurally valid,
correctly signed token past its `exp`. -/
inductive JwtVerifyError
  | jsonWebTokenError (msg : String)
  | tokenExpiredError (expiredAt : Nat)
deriving Repr, DecidableEq

/-- `e instanceof jwt.JsonWebTokenError`.  In the jsonwebtoken library
`TokenExpiredError` is declared as a subclass of `JsonWebTokenError`
(its prototype is `Object.create(JsonWebTokenError.prototype)`), so this
test is true for every verification error, expired ones included. -/
def instanceofJsonWebTokenError : JwtVerifyError → Bool := fun _ => true

/-- `e instanceof jwt.TokenExpiredError`: true exactly for expiry errors. -/
def instanceofTokenExpiredError : JwtVerifyError → Bool
  | .tokenExpiredError _ => true
  | _ => false

/-- The default `JWT_SECRET` from utils/jwt.ts. -/
def jwtSecret : String := "your-secret-key-change-in-production"

/-- TTL in seconds of `JWT_EXPIRATION = '24h'`. -/
def jwtExpirationSeconds : Nat := 24 * 60 * 60

/-- Model of `jwt.verify(token, secret)` evaluated at clock time `now`
(seconds): rejects malformed tokens and wrong-secret signatures with
`JsonWebTokenError`, then rejects tokens with `now ≥ exp` with
`TokenExpiredError`, otherwise returns the decoded payload. -/
def jwtVerify (token : JwtString) (secret : String) (now : Nat) :
    Except JwtVerifyError JwtPayload :=
  match token with
  | .malformed _ => .error (.jsonWebTokenError "jwt malformed")
  | .signed userId email iat exp sec =>
    if sec ≠ secret then .error (.jsonWebTokenError "invalid signature")
    else if now ≥ exp then .error (.tokenExpiredError exp)
    else .ok ⟨userId, email, iat, exp⟩

/-- Model of `jwt.sign(payload, secret, { expiresIn })` at clock time `now`:
a signed token with `iat = now` and `exp = now + expiresIn`. -/
def jwtSign (userId email secret : String) (now expiresIn : Nat) : JwtString :=
  .signed userId email now (now + expiresIn) secret

/-- `generateToken(userId, email)` from utils/jwt.ts, at clock time `now`. -/
def generateToken (userId email : String) (now : Nat) : JwtString :=
  jwtSign userId email jwtSecret now jwtExpirationSeconds

/-- `verifyToken(token)` from utils/jwt.ts at clock time `now`: calls
`jwt.verify` and maps its errors through the source's `instanceof`
cascade — `JsonWebTokenError` first, then `TokenExpiredError`, then the
generic fallback. -/
def verifyToken (token : JwtString) (now : Nat) : Except String JwtPayload :=
  match jwtVerify token jwtSecret now with
  | .ok decoded => .ok decoded
  | .error e =>
    if instanceofJsonWebTokenError e then .error "Invalid token"
    else if instanceofTokenExpiredError e then .error "Token expired"
    else .error "Token verification failed"

/-- `extractTokenFromHeader(authHeader)` from utils/jwt.ts: `none` for a
missing or JS-falsy (empty) header, `none` unless the header starts with
`'Bearer '`, otherwise the substring from position 7 (the prefix test and
the drop are taken on the character list). -/
def extractTokenFromHeader (authHeader : Option String) : Option String :=
  match authHeader with
  | none => none
  | some h =>
    if h == "" then none
    else if ¬ ("Bearer ".toList.isPrefixOf h.toList) then none
    else some (String.mk (h.toList.drop 7))

/-! ## Access Gate (middleware/auth.ts) -/

/-- JavaScript falsiness of an optional string value (`!x` is true for a
missing value and for the empty string). -/
def isFalsy : Option String → Bool
  | none => true
  | some s => s == ""

/-- The JSON body of a middleware rejection: `{ success, error }`. -/
structure ErrorBody where
  success : Bool
  error : String
deriving Repr, DecidableEq

/-- Outcome of the `authenticate` middleware: either a rejection response
(status code plus body) or `next()` with the decoded payload attached to
`req.user`. -/
inductive AuthOutcome
  | rejected (status : Nat) (body : ErrorBody)
  | attached (user : JwtPayload)
deriving Repr, DecidableEq

/-- `authenticate` from middleware/auth.ts.  `wireDecode` is the ambient
interpretation of raw token strings as the jsonwebtoken library classifies
them; `authHeader` is `req.headers.authorization`; `now` is the clock.
The source's `if (!token)` is a JS-falsiness test on the extracted token,
true both when extraction returned nothing and when it returned the empty
string (header exactly `'Bearer '`): both reject with the fixed
missing-token body before `verifyToken` is ever called.  The pure
extraction is repeated in the else-branch in place of the source's local
`token` binding. -/
def authenticate (wireDecode : String → JwtString) (authHeader : Option String)
    (now : Nat) : AuthOutcome :=
  if isFalsy (extractTokenFromHeader authHeader) then
    .rejected 401 ⟨false, "Authentication required. Please provide a valid token."⟩
  else
    match verifyToken
        (wireDecode ((extractTokenFromHeader authHeader).getD "")) now with
    | .ok decoded => .attached decoded
    | .error msg => .rejected 401 ⟨false, msg⟩

/-! ## Credential Store Adapter (models/User.ts) and bcrypt model -/

/-- Model of a bcrypt hash: bcrypt embeds the salt in the hash and the hash
is a one-way function of (salt, plaintext), so a hash value is determined
by those two components.  `comparePassword` below then realises bcrypt's
contract `compare(p, hash(salt, q)) = (p = q)`. -/
structure BcryptHash where
  salt : Nat
  source : String
deriving Repr, DecidableEq

/-- `hashPassword(password)` from utils/password.ts, with the random salt
drawn by bcrypt passed explicitly. -/
def hashPassword (password : String) (salt : Nat) : BcryptHash :=
  ⟨salt, password⟩

/-- `comparePassword(password, hashedPassword)` from utils/password.ts. -/
def comparePassword (password : String) (hashed : BcryptHash) : Bool :=
  password == hashed.source

/-- A persisted user document (models/User.ts): identity, credential,
state flag, audit timestamps. -/
structure UserRecord where
  _id : String
  name : String
  email : String
  password : BcryptHash
  mustChangePassword : Bool
  createdAt : Nat
  updatedAt : Nat
  lastLogin : Option Nat
deriving Repr, DecidableEq

/-- The user collection, threaded through every operation. -/
abbrev UserStore := List UserRecord

/-- `User.findOne({ email })`: first record with the given email. -/
def findByEmail (store : UserStore) (email : String) : Option UserRecord :=
  store.find? (fun u => u.email == email)

/-- `User.findById(id)`: first record with the given id. -/
def findById (store : UserStore) (id : String) : Option UserRecord :=
  store.find? (fun u => u._id == id)

/-- `UserSafe` from the shared types: the user object as returned to
clients — every field of the record except the password hash. -/
structure UserSafe where
  _id : String
  name : String
  email : String
  mustChangePassword : Bool
  createdAt : Nat
  updatedAt : Nat
  lastLogin : Option Nat
deriving Repr, DecidableEq

/-- The `userSafe` construction each controller performs by hand: copy
every field of the document except `password`. -/
def toUserSafe (u : UserRecord) : UserSafe :=
  ⟨u._id, u.name, u.email, u.mustChangePassword, u.createdAt, u.updatedAt,
   u.lastLogin⟩

/-- Serialisation of a `UserSafe` into its JSON key/value pairs. -/
def userSafeFields (s : UserSafe) : List (String × String) :=
  [("_id", s._id), ("name", s.name), ("email", s.email),
   ("mustChangePassword", toString s.mustChangePassword),
   ("createdAt", toString s.createdAt), ("updatedAt", toString s.updatedAt),
   ("lastLogin", toString s.lastLogin)]

/-- `AppError(message, statusCode)` from middleware/errorHandler.ts; the
error handler renders it as status `statusCode` with body
`{ success: false, error: message }`. -/
structure AppError where
  message : String
  statusCode : Nat
deriving Repr, DecidableEq

/-- `s.toLowerCase()`: lower-case character by character. -/
def toLowerStr (s : String) : String := String.mk (s.toList.map Char.toLower)

/-! ## Auth State Machine (controllers/authController.ts) -/

/-- Success payload of login: `{ token, user }`. -/
structure LoginOk where
  token : JwtString
  user : UserSafe
deriving Repr, DecidableEq

/-- `login` from authController.ts at clock time `now`.  Returns the
response outcome together with the resulting store (`user.save()` after
updating `lastLogin` replaces the matched document). -/
def login (store : UserStore) (email password : Option String) (now : Nat) :
    Except AppError LoginOk × UserStore :=
  if isFalsy email || isFalsy password then
    (.error ⟨"Email and password are required", 400⟩, store)
  else
    match findByEmail store (toLowerStr (email.getD "")) with
    | none => (.error ⟨"Invalid email or password", 401⟩, store)
    | some user =>
      if ¬ comparePassword (password.getD "") user.password then
        (.error ⟨"Invalid email or password", 401⟩, store)
      else
        let token := generateToken user._id user.email now
        let saved := { user with lastLogin := some now }
        (.ok ⟨token, toUserSafe saved⟩,
         store.map (fun u => if u._id == user._id then saved else u))

/-- `getCurrentUser` from authController.ts.  `userId` is
`req.user?.userId` as attached by the Access Gate (none when absent);
`.select('-password')` is reflected by returning a `UserSafe`. -/
def getCurrentUser (store : UserStore) (userId : Option String) :
    Except AppError UserSafe :=
  if isFalsy userId then .error ⟨"User not authenticated", 401⟩
  else
    match findById store (userId.getD "") with
    | none => .error ⟨"User not found", 404⟩
    | some user => .ok (toUserSafe user)

/-- Outcome of `changePassword`: an `AppError` rendered by the error
handler, the direct 400 response carrying the full violation list, or the
200 success response. -/
inductive ChangePasswordOutcome
  | errorResp (e : AppError)
  | validationResp (errors : List PasswordValidationError)
  | success
deriving Repr, DecidableEq

/-- `changePassword` from authController.ts, with the bcrypt salt of the
re-hash passed explicitly.  Returns the outcome and the resulting store:
the single `user.save()` persists the new hash and the cleared
`mustChangePassword` flag together. -/
def changePassword (store : UserStore) (userId currentPassword newPassword :
    Option String) (freshSalt : Nat) : ChangePasswordOutcome × UserStore :=
  if isFalsy userId then
    (.errorResp ⟨"User not authenticated", 401⟩, store)
  else if isFalsy currentPassword || isFalsy newPassword then
    (.errorResp ⟨"Current password and new password are required", 400⟩, store)
  else if (validatePassword (newPassword.getD "")).length > 0 then
    (.validationResp (validatePassword (newPassword.getD "")), store)
  else
    match findById store (userId.getD "") with
    | none => (.errorResp ⟨"User not found", 404⟩, store)
    | some user =>
      if ¬ comparePassword (currentPassword.getD "") user.password then
        (.errorResp ⟨"Current password is incorrect", 401⟩, store)
      else if comparePassword (newPassword.getD "") user.password then
        (.errorResp ⟨"New password must be different from current password", 400⟩,
         store)
      else
        let saved := { user with
          password := hashPassword (newPassword.getD "") freshSalt,
          mustChangePassword := false }
        (.success, store.map (fun u => if u._id == user._id then saved else u))

/-! ## Provisioning Service and user CRUD (controllers/userController.ts) -/

/-- A single-quote character as a string, for the duplicate-email message. -/
def sq : String := String.singleton (Char.ofNat 39)

/-- Case-insensitive substring test, modelling the
`{ $regex: search, $options: 'i' }` filter for plain search terms. -/
def containsCI (hay needle : String) : Bool :=
  ((toLowerStr hay).splitOn (toLowerStr needle)).length > 1

/-- The `$or` search filter of getUsers: a non-empty search term must
occur (case-insensitively) in the name or the email. -/
def matchesSearch (search : String) (u : UserRecord) : Bool :=
  if search == "" then true
  else containsCI u.name search || containsCI u.email search

/-- Insertion step for sorting by `createdAt` descending. -/
def insertByCreatedAtDesc (u : UserRecord) : List UserRecord → List UserRecord
  | [] => [u]
  | v :: vs =>
    if v.createdAt ≤ u.createdAt then u :: v :: vs
    else v :: insertByCreatedAtDesc u vs

/-- `.sort({ createdAt: -1 })`: newest first. -/
def sortByCreatedAtDesc : List UserRecord → List UserRecord
  | [] => []
  | u :: us => insertByCreatedAtDesc u (sortByCreatedAtDesc us)

/-- `PaginatedUsersResponse` from the shared types. -/
structure PaginatedUsersResponse where
  users : List UserSafe
  total : Nat
  page : Nat
  limit : Nat
  totalPages : Nat
deriving Repr, DecidableEq

/-- `getUsers` from userController.ts.  `page` and `rawLimit` are the
query parameters after the source's `parseInt(...) || default` handling;
the controller further caps the limit at 100, skips `(page - 1) * limit`
documents of the filtered, newest-first collection, takes `limit` of
them, and strips the password from every returned document. -/
def getUsers (store : UserStore) (page rawLimit : Nat) (search : String) :
    PaginatedUsersResponse :=
  let limit := min rawLimit 100
  let skip := (page - 1) * limit
  let matched := store.filter (matchesSearch search)
  let total := matched.length
  let users := (((sortByCreatedAtDesc matched).drop skip).take limit).map toUserSafe
  ⟨users, total, page, limit, (total + limit - 1) / limit⟩

/-- Success payload of createUser: `{ user, generatedPassword }`. -/
structure CreateUserOk where
  user : UserSafe
  generatedPassword : String
deriving Repr, DecidableEq

/-- `createUser` from userController.ts: the Provisioning Service.  The
output of `generatePassword()`, the bcrypt salt, the store-assigned id
and the clock are passed explicitly.  The created document has
`mustChangePassword: true`. -/
def createUser (store : UserStore) (name email : Option String)
    (generatedPassword : String) (freshSalt : Nat) (newId : String)
    (now : Nat) : Except AppError CreateUserOk × UserStore :=
  if isFalsy name || isFalsy email then
    (.error ⟨"Name and email are required", 400⟩, store)
  else
    match findByEmail store (toLowerStr (email.getD "")) with
    | some _ =>
      (.error ⟨"Email " ++ sq ++ email.getD "" ++ sq ++ " already exists", 409⟩,
       store)
    | none =>
      let created : UserRecord :=
        ⟨newId, name.getD "", toLowerStr (email.getD ""),
         hashPassword generatedPassword freshSalt, true, now, now, none⟩
      (.ok ⟨toUserSafe created, generatedPassword⟩, store ++ [created])

/-- `getUserById` from userController.ts (`.select('-password')`). -/
def getUserById (store : UserStore) (id : String) : Except AppError UserSafe :=
  match findById store id with
  | none => .error ⟨"User not found", 404⟩
  | some user => .ok (toUserSafe user)

/-- `updateUser` from userController.ts: requires at least one field,
rejects a duplicate email belonging to a different address, then updates
the provided fields and saves. -/
def updateUser (store : UserStore) (id : String) (name email : Option String) :
    Except AppError UserSafe × UserStore :=
  if isFalsy name && isFalsy email then
    (.error ⟨"At least one field (name or email) must be provided", 400⟩, store)
  else
    match findById store id with
    | none => (.error ⟨"User not found", 404⟩, store)
    | some user =>
      if !(isFalsy email) && !(toLowerStr (email.getD "") == user.email) &&
          (findByEmail store (toLowerStr (email.getD ""))).isSome then
        (.error ⟨"Email " ++ sq ++ email.getD "" ++ sq ++ " already exists", 409⟩,
         store)
      else
        let saved := { user with
          name := if isFalsy name then user.name else name.getD "",
          email := if isFalsy email then user.email
                   else toLowerStr (email.getD "") }
        (.ok (toUserSafe saved),
         store.map (fun u => if u._id == user._id then saved else u))

/-- `deleteUser` from userController.ts: the self-deletion guard
(`id === currentUserId`, where `currentUserId` is `req.user?.userId`)
runs before `findByIdAndDelete`. -/
def deleteUser (store : UserStore) (id : String)
    (currentUserId : Option String) : Except AppError Unit × UserStore :=
  if currentUserId == some id then
    (.error ⟨"You cannot delete your own account", 400⟩, store)
  else
    match findById store id with
    | none => (.error ⟨"User not found", 404⟩, store)
    | some _ => (.ok (), store.filter (fun u => !(u._id == id)))

/-! ## Shared helper lemmas -/

/-- Every error `verifyToken` returns is the string `"Invalid token"`:
because `TokenExpiredError` is a subclass of `JsonWebTokenError`, the
first `instanceof` branch captures every `jwt.verify` error. -/
theorem verifyToken_error_eq (token : JwtString) (now : Nat) (msg : String)
    (h : verifyToken token now = .error msg) : msg = "Invalid token" := by
  unfold verifyToken at h
  cases htok : jwtVerify token jwtSecret now with
  | ok p => rw [htok] at h; cases h
  | error e =>
    rw [htok] at h
    simp [instanceofJsonWebTokenError] at h
    exact h.symm

/-- The updated record is a member of the mapped store (`user.save()`). -/
theorem mem_map_update (store : UserStore) (user saved : UserRecord)
    (hmem : user ∈ store) :
    saved ∈ store.map (fun u => if u._id == user._id then saved else u) := by
  refine List.mem_map.mpr ⟨user, hmem, ?_⟩
  simp

/-- Membership through the descending insertion step. -/
theorem mem_insertByCreatedAtDesc {x u : UserRecord} {l : List UserRecord} :
    x ∈ insertByCreatedAtDesc u l ↔ x = u ∨ x ∈ l := by
  induction l with
  | nil => simp [insertByCreatedAtDesc]
  | cons v vs ih =>
    simp only [insertByCreatedAtDesc]
    split
    · simp
    · simp [ih]
      tauto

/-- Sorting by `createdAt` descending preserves membership. -/
theorem mem_sortByCreatedAtDesc {x : UserRecord} {l : List UserRecord} :
    x ∈ sortByCreatedAtDesc l ↔ x ∈ l := by
  induction l with
  | nil => simp [sortByCreatedAtDesc]
  | cons u us ih =>
    simp [sortByCreatedAtDesc, mem_insertByCreatedAtDesc, ih]

/-- The serialised keys of a `UserSafe` never include `"password"`. -/
theorem userSafeFields_no_password (s : UserSafe) :
    "password" ∉ (userSafeFields s).map Prod.fst := by
  simp [userSafeFields]

/-! ## Claim theorems -/

/-- C1: verifyToken is meant to raise the distinct error `'Token expired'`
for a well-formed, correctly signed token past its expiry, but because
`TokenExpiredError` is a subclass of `JsonWebTokenError` the first
`instanceof` branch also captures expiry, so an expired token raises
`'Invalid token'` — the same error as the malformed/invalid-signature
case — and the `'Token expired'` branch is unreachable. -/
theorem verifyToken_expired_conflated_with_invalid :
    verifyToken (generateToken "user1" "user1@example.com" 0) 86400 =
      .error "Invalid token" ∧
    verifyToken (.malformed "not-a-jwt") 86400 = .error "Invalid token" ∧
    ("Invalid token" : String) ≠ "Token expired" :=
  ⟨rfl, rfl, by decide⟩

/-- C2 (counterexample): a current-identity request whose authenticated
subject id no longer resolves to a record fails with status 404
(`'User not found'`), not with Unauthorized 401 as claimed. -/
theorem getCurrentUser_deleted_is_404_not_401 :
    getCurrentUser [] (some "605c5f8f8f8f8f8f8f8f8f8f") =
      .error ⟨"User not found", 404⟩ ∧ (404 : Nat) ≠ 401 :=
  ⟨rfl, by decide⟩

/-- C2 (amended): for every store and every non-empty authenticated
subject id that matches no record, the current-identity operation fails
with NotFound (HTTP 404, `'User not found'`), so a deleted account is
distinguishable from a bad token at the boundary. -/
theorem getCurrentUser_deleted_account_not_found (store : UserStore)
    (uid : String) (hne : uid ≠ "") (hgone : findById store uid = none) :
    getCurrentUser store (some uid) = .error ⟨"User not found", 404⟩ := by
  simp [getCurrentUser, isFalsy, hne, hgone]

/-- C2 witness: the amended theorem at a concrete input. -/
theorem getCurrentUser_deleted_account_not_found_witness :
    getCurrentUser [] (some "u1") = .error ⟨"User not found", 404⟩ :=
  getCurrentUser_deleted_account_not_found [] "u1" (by decide) rfl

/-- C3 (counterexample): two Access Gate rejections with different
reasons have different client-facing bodies — the missing-token rejection
body (returned both for an absent header and for an extracted-but-empty
token, header exactly `'Bearer '`) and the invalid-token rejection body
are distinct, so the distinguishing reason is not confined to logging. -/
theorem authenticate_rejection_bodies_differ :
    authenticate JwtString.malformed none 0 =
      .rejected 401
        ⟨false, "Authentication required. Please provide a valid token."⟩ ∧
    authenticate JwtString.malformed (some "Bearer ") 0 =
      .rejected 401
        ⟨false, "Authentication required. Please provide a valid token."⟩ ∧
    authenticate JwtString.malformed (some "Bearer x") 0 =
      .rejected 401 ⟨false, "Invalid token"⟩ ∧
    ("Authentication required. Please provide a valid token." : String) ≠
      "Invalid token" :=
  ⟨rfl, rfl, rfl, by decide⟩

/-- C3 (amended): every required-auth rejection carries HTTP 401 and
`success: false`, and the body's `error` field carries the distinguishing
reason, assigned per cause: exactly the fixed missing-token message when
the extracted token is missing or empty (`if (!token)`), and exactly the
message from verifyToken when a non-empty token was presented — which, by
the verifyToken defect, is `'Invalid token'` for malformed,
invalid-signature and expired tokens alike. -/
theorem authenticate_rejection_carries_reason
    (wireDecode : String → JwtString) (h : Option String) (now status : Nat)
    (body : ErrorBody)
    (hrej : authenticate wireDecode h now = .rejected status body) :
    status = 401 ∧ body.success = false ∧
    (isFalsy (extractTokenFromHeader h) = true →
      body.error =
        "Authentication required. Please provide a valid token.") ∧
    (isFalsy (extractTokenFromHeader h) = false →
      body.error = "Invalid token") := by
  unfold authenticate at hrej
  split at hrej
  · rename_i hfal
    cases hrej
    refine ⟨rfl, rfl, fun _ => rfl, fun hfal' => ?_⟩
    rw [hfal'] at hfal
    cases hfal
  · rename_i hfal
    rw [Bool.not_eq_true] at hfal
    split at hrej
    · cases hrej
    · cases hrej
      rename_i hver
      refine ⟨rfl, rfl, fun hfal' => ?_, fun _ =>
        verifyToken_error_eq _ _ _ hver⟩
      rw [hfal'] at hfal
      cases hfal

/-- C3 witness: the amended theorem at a concrete rejected request. -/
theorem authenticate_rejection_carries_reason_witness :
    (401 : Nat) = 401 ∧
    (⟨false, "Invalid token"⟩ : ErrorBody).success = false ∧
    (isFalsy (extractTokenFromHeader (some "Bearer x")) = true →
      (⟨false, "Invalid token"⟩ : ErrorBody).error =
        "Authentication required. Please provide a valid token.") ∧
    (isFalsy (extractTokenFromHeader (some "Bearer x")) = false →
      (⟨false, "Invalid token"⟩ : ErrorBody).error = "Invalid token") :=
  authenticate_rejection_carries_reason JwtString.malformed
    (some "Bearer x") 0 401 ⟨false, "Invalid token"⟩ rfl

/-- C9: verifying a token issued for a given id and email succeeds with
exactly those claims when performed strictly before the 24-hour TTL has
elapsed, and fails once the TTL has elapsed. -/
theorem token_roundtrip (userId email : String) (t tNow : Nat) :
    (tNow < t + jwtExpirationSeconds →
      verifyToken (generateToken userId email t) tNow =
        .ok ⟨userId, email, t, t + jwtExpirationSeconds⟩) ∧
    (t + jwtExpirationSeconds ≤ tNow →
      verifyToken (generateToken userId email t) tNow =
        .error "Invalid token") := by
  constructor
  · intro hlt
    simp [verifyToken, generateToken, jwtSign, jwtVerify, Nat.not_le.mpr hlt]
  · intro hle
    simp [verifyToken, generateToken, jwtSign, jwtVerify, hle,
      instanceofJsonWebTokenError]

/-- C9 witness: the round-trip theorem at concrete times on both sides of
the TTL boundary. -/
theorem token_roundtrip_witness :
    verifyToken (generateToken "u" "u@x.y" 0) 86399 =
      .ok ⟨"u", "u@x.y", 0, 86400⟩ ∧
    verifyToken (generateToken "u" "u@x.y" 0) 86400 =
      .error "Invalid token" :=
  ⟨(token_roundtrip "u" "u@x.y" 0 86399).1 (by decide),
   (token_roundtrip "u" "u@x.y" 0 86400).2 (by decide)⟩

/-- C10: a delete request whose target id equals the acting identity's id
fails with 400 `'You cannot delete your own account'` and leaves the
store unchanged, for every store — the guard runs before any lookup. -/
theorem deleteUser_self_deletion_rejected (store : UserStore) (id : String) :
    deleteUser store id (some id) =
      (.error ⟨"You cannot delete your own account", 400⟩, store) := by
  simp [deleteUser]

/-- Any character drawn from the uppercase generation set is `[A-Z]`. -/
theorem uppercase_getD_isUpper :
    ∀ i : Fin 26, isUpperAZ (uppercaseChars.getD i 'A') = true := by decide

/-- Any character drawn from the lowercase generation set is `[a-z]`. -/
theorem lowercase_getD_isLower :
    ∀ i : Fin 26, isLowerAZ (lowercaseChars.getD i 'a') = true := by decide

/-- Any character drawn from the digit generation set is `[0-9]`. -/
theorem number_getD_isDigit :
    ∀ i : Fin 10, isDigit09 (numberChars.getD i '0') = true := by decide

/-- Any character drawn from the special generation set `'!@#$%^&*'` lies
in the validation special-character class. -/
theorem special_getD_isSpecial :
    ∀ i : Fin 8, isSpecialValidation (specialGenChars.getD i '!') = true := by
  decide

/-- C5: whatever random indices the generator draws and however the final
shuffle permutes the assembled characters, the generated password has
length exactly 16, contains at least one uppercase letter, one lowercase
letter, one digit and one special character, and validatePassword returns
the empty violation list on it. -/
theorem generated_password_satisfies_policy (iU iL : Fin 26) (iN : Fin 10)
    (iS : Fin 8) (rest : Fin 12 → Fin 70) (out : List Char)
    (hshuffle : out.Perm (generatePasswordChars iU iL iN iS rest)) :
    out.length = 16 ∧ out.any isUpperAZ = true ∧ out.any isLowerAZ = true ∧
    out.any isDigit09 = true ∧ out.any isSpecialValidation = true ∧
    validatePassword (String.mk out) = [] := by
  have hlen : out.length = 16 := by
    rw [hshuffle.length_eq]
    simp [generatePasswordChars]
  have hU : out.any isUpperAZ = true := by
    refine List.any_eq_true.mpr ⟨uppercaseChars.getD iU 'A', ?_, ?_⟩
    · exact hshuffle.mem_iff.mpr (by simp [generatePasswordChars])
    · exact uppercase_getD_isUpper iU
  have hL : out.any isLowerAZ = true := by
    refine List.any_eq_true.mpr ⟨lowercaseChars.getD iL 'a', ?_, ?_⟩
    · exact hshuffle.mem_iff.mpr (by simp [generatePasswordChars])
    · exact lowercase_getD_isLower iL
  have hD : out.any isDigit09 = true := by
    refine List.any_eq_true.mpr ⟨numberChars.getD iN '0', ?_, ?_⟩
    · exact hshuffle.mem_iff.mpr (by simp [generatePasswordChars])
    · exact number_getD_isDigit iN
  have hS : out.any isSpecialValidation = true := by
    refine List.any_eq_true.mpr ⟨specialGenChars.getD iS '!', ?_, ?_⟩
    · exact hshuffle.mem_iff.mpr (by simp [generatePasswordChars])
    · exact special_getD_isSpecial iS
  have hdata : (String.mk out).toList = out := rfl
  have hlen' : (String.mk out).length = out.length := rfl
  refine ⟨hlen, hU, hL, hD, hS, ?_⟩
  simp [validatePassword, hdata, hlen', hlen, hU, hL, hD, hS]

/-- C5 witness: the policy round-trip at one concrete draw (the identity
shuffle of the list assembled from index 0 of every class). -/
theorem generated_password_satisfies_policy_witness :
    (generatePasswordChars 0 0 0 0 (fun _ => 0)).length = 16 ∧
    (generatePasswordChars 0 0 0 0 (fun _ => 0)).any isUpperAZ = true ∧
    (generatePasswordChars 0 0 0 0 (fun _ => 0)).any isLowerAZ = true ∧
    (generatePasswordChars 0 0 0 0 (fun _ => 0)).any isDigit09 = true ∧
    (generatePasswordChars 0 0 0 0 (fun _ => 0)).any isSpecialValidation
      = true ∧
    validatePassword (String.mk (generatePasswordChars 0 0 0 0 (fun _ => 0)))
      = [] :=
  generated_password_satisfies_policy 0 0 0 0 (fun _ => 0) _ (List.Perm.refl _)

/-- C7: with both fields present, a login that fails because no record
matches the lower-cased email and a login that fails because the password
does not match the stored hash return the identical Unauthorized error:
status 401 with the generic message `'Invalid email or password'`. -/
theorem login_failures_indistinguishable (store : UserStore)
    (email password : Option String) (now : Nat)
    (hemail : isFalsy email = false) (hpassword : isFalsy password = false) :
    (findByEmail store (toLowerStr (email.getD "")) = none →
      (login store email password now).1 =
        .error ⟨"Invalid email or password", 401⟩) ∧
    (∀ user, findByEmail store (toLowerStr (email.getD "")) = some user →
      comparePassword (password.getD "") user.password = false →
      (login store email password now).1 =
        .error ⟨"Invalid email or password", 401⟩) := by
  constructor
  · intro hfind
    simp [login, hemail, hpassword, hfind]
  · intro user hfind hcmp
    simp [login, hemail, hpassword, hfind, hcmp]

/-- C7 witness: both failure paths at concrete inputs — an empty store
(unknown email) and a one-user store with a wrong password. -/
theorem login_failures_indistinguishable_witness :
    (login [] (some "a@b.c") (some "x") 0).1 =
      .error ⟨"Invalid email or password", 401⟩ ∧
    (login [⟨"i1", "N", "a@b.c", ⟨0, "right"⟩, false, 0, 0, none⟩]
        (some "a@b.c") (some "wrong") 0).1 =
      .error ⟨"Invalid email or password", 401⟩ :=
  ⟨(login_failures_indistinguishable [] (some "a@b.c") (some "x") 0
      rfl rfl).1 rfl,
   (login_failures_indistinguishable
      [⟨"i1", "N", "a@b.c", ⟨0, "right"⟩, false, 0, 0, none⟩]
      (some "a@b.c") (some "wrong") 0 rfl rfl).2
      ⟨"i1", "N", "a@b.c", ⟨0, "right"⟩, false, 0, 0, none⟩ rfl rfl⟩

/-- C6: in an authenticated change-password request the checks run in
source order and the first failing one determines the outcome:
(1) a missing field gives the 400 required-fields error; otherwise
(2) a policy-violating new password gives the 400 response carrying the
full violation list — also when the current password is simultaneously
wrong; otherwise (3) a wrong current password gives 401
`'Current password is incorrect'`; otherwise (4) a new password equal to
the current one gives the 400 must-differ error. -/
theorem changePassword_check_order (store : UserStore) (uid : String)
    (cur new : Option String) (salt : Nat) (huid : uid ≠ "") :
    ((isFalsy cur || isFalsy new) = true →
      (changePassword store (some uid) cur new salt).1 =
        .errorResp ⟨"Current password and new password are required", 400⟩) ∧
    ((isFalsy cur || isFalsy new) = false →
      validatePassword (new.getD "") ≠ [] →
      (changePassword store (some uid) cur new salt).1 =
        .validationResp (validatePassword (new.getD ""))) ∧
    (∀ user, (isFalsy cur || isFalsy new) = false →
      validatePassword (new.getD "") ≠ [] →
      findById store uid = some user →
      comparePassword (cur.getD "") user.password = false →
      (changePassword store (some uid) cur new salt).1 =
        .validationResp (validatePassword (new.getD ""))) ∧
    (∀ user, (isFalsy cur || isFalsy new) = false →
      validatePassword (new.getD "") = [] →
      findById store uid = some user →
      comparePassword (cur.getD "") user.password = false →
      (changePassword store (some uid) cur new salt).1 =
        .errorResp ⟨"Current password is incorrect", 401⟩) ∧
    (∀ user, (isFalsy cur || isFalsy new) = false →
      validatePassword (new.getD "") = [] →
      findById store uid = some user →
      comparePassword (cur.getD "") user.password = true →
      comparePassword (new.getD "") user.password = true →
      (changePassword store (some uid) cur new salt).1 =
        .errorResp
          ⟨"New password must be different from current password", 400⟩) := by
  have huid' : isFalsy (some uid) = false := by simp [isFalsy, huid]
  refine ⟨?_, ?_, ?_, ?_, ?_⟩
  · intro hmiss
    simp [changePassword, huid', hmiss]
  · intro hfields hviol
    simp [changePassword, huid', hfields, List.length_pos.mpr hviol]
  · intro user hfields hviol _ _
    simp [changePassword, huid', hfields, List.length_pos.mpr hviol]
  · intro user hfields hok hfind hcmp
    simp [changePassword, huid', hfields, hok, hfind, hcmp]
  · intro user hfields hok hfind hcur hsame
    simp [changePassword, huid', hfields, hok, hfind, hcur, hsame]

/-- C6 witness: each check at a concrete input — missing field; weak new
password (also with a wrong current password); wrong current password;
new password equal to the current one. -/
theorem changePassword_check_order_witness :
    ((changePassword [] (some "i1") none (some "NewPassword456!") 0).1 =
      .errorResp ⟨"Current password and new password are required", 400⟩) ∧
    ((changePassword [] (some "i1") (some "x") (some "weak") 0).1 =
      .validationResp (validatePassword "weak")) ∧
    ((changePassword
        [⟨"i1", "N", "a@b.c", ⟨0, "OldPassword123!"⟩, true, 0, 0, none⟩]
        (some "i1") (some "wrong") (some "weak") 0).1 =
      .validationResp (validatePassword "weak")) ∧
    ((changePassword
        [⟨"i1", "N", "a@b.c", ⟨0, "OldPassword123!"⟩, true, 0, 0, none⟩]
        (some "i1") (some "wrong") (some "NewPassword456!") 0).1 =
      .errorResp ⟨"Current password is incorrect", 401⟩) ∧
    ((changePassword
        [⟨"i1", "N", "a@b.c", ⟨0, "OldPassword123!"⟩, true, 0, 0, none⟩]
        (some "i1") (some "OldPassword123!") (some "OldPassword123!") 0).1 =
      .errorResp
        ⟨"New password must be different from current password", 400⟩) := by
  refine ⟨?_, ?_, ?_, ?_, ?_⟩
  · exact (changePassword_check_order [] "i1" none (some "NewPassword456!") 0
      (by decide)).1 rfl
  · exact (changePassword_check_order [] "i1" (some "x") (some "weak") 0
      (by decide)).2.1 rfl (by decide)
  · exact (changePassword_check_order
      [⟨"i1", "N", "a@b.c", ⟨0, "OldPassword123!"⟩, true, 0, 0, none⟩]
      "i1" (some "wrong") (some "weak") 0 (by decide)).2.2.1
      ⟨"i1", "N", "a@b.c", ⟨0, "OldPassword123!"⟩, true, 0, 0, none⟩
      rfl (by decide) rfl rfl
  · exact (changePassword_check_order
      [⟨"i1", "N", "a@b.c", ⟨0, "OldPassword123!"⟩, true, 0, 0, none⟩]
      "i1" (some "wrong") (some "NewPassword456!") 0 (by decide)).2.2.2.1
      ⟨"i1", "N", "a@b.c", ⟨0, "OldPassword123!"⟩, true, 0, 0, none⟩
      rfl (by decide) rfl rfl
  · exact (changePassword_check_order
      [⟨"i1", "N", "a@b.c", ⟨0, "OldPassword123!"⟩, true, 0, 0, none⟩]
      "i1" (some "OldPassword123!") (some "OldPassword123!") 0
      (by decide)).2.2.2.2
      ⟨"i1", "N", "a@b.c", ⟨0, "OldPassword123!"⟩, true, 0, 0, none⟩
      rfl (by decide) rfl rfl rfl

/-- C4: an administrator-provisioned account is created with
`mustChangePassword = true`; and every change-password run either
succeeds, persisting the new hash and the cleared flag for the matched
record in one single store write (never one without the other), or fails
and leaves the store exactly unchanged. -/
theorem password_rotation_atomic :
    (∀ store name email gp salt nid now r store',
      createUser store name email gp salt nid now = (.ok r, store') →
      ∃ u ∈ store', u.mustChangePassword = true ∧ r.user = toUserSafe u) ∧
    (∀ store uid cur new salt,
      (∃ user, findById store (uid.getD "") = some user ∧
        changePassword store uid cur new salt =
          (.success, store.map (fun u => if u._id == user._id then
            { user with password := hashPassword (new.getD "") salt,
                        mustChangePassword := false } else u))) ∨
      ((changePassword store uid cur new salt).1 ≠ .success ∧
       (changePassword store uid cur new salt).2 = store)) := by
  constructor
  · intro store name email gp salt nid now r store' h
    unfold createUser at h
    split at h
    · simp at h
    · split at h
      · simp at h
      · simp only [Prod.mk.injEq, Except.ok.injEq] at h
        obtain ⟨hr, hs⟩ := h
        subst hr
        subst hs
        exact ⟨_, List.mem_append_right store (List.mem_singleton.mpr rfl),
          rfl, rfl⟩
  · intro store uid cur new salt
    by_cases h1 : isFalsy uid = true
    · right; constructor <;> simp [changePassword, h1]
    · replace h1 : isFalsy uid = false := by
        cases hv : isFalsy uid
        · rfl
        · exact absurd hv h1
      by_cases h2 : (isFalsy cur || isFalsy new) = true
      · right; constructor <;> simp [changePassword, h1, h2]
      · replace h2 : (isFalsy cur || isFalsy new) = false := by
          cases hv : isFalsy cur || isFalsy new
          · rfl
          · exact absurd hv h2
        by_cases h3 : 0 < (validatePassword (new.getD "")).length
        · right; constructor <;> simp [changePassword, h1, h2, h3]
        · cases hfind : findById store (uid.getD "") with
          | none =>
            right; constructor <;> simp [changePassword, h1, h2, h3, hfind]
          | some user =>
            by_cases h4 : comparePassword (cur.getD "") user.password = true
            · by_cases h5 : comparePassword (new.getD "") user.password = true
              · right
                constructor <;> simp [changePassword, h1, h2, h3, hfind, h4, h5]
              · replace h5 : comparePassword (new.getD "") user.password
                    = false := by
                  cases hv : comparePassword (new.getD "") user.password
                  · rfl
                  · exact absurd hv h5
                left
                exact ⟨user, rfl,
                  by simp [changePassword, h1, h2, h3, hfind, h4, h5]⟩
            · replace h4 : comparePassword (cur.getD "") user.password
                  = false := by
                cases hv : comparePassword (cur.getD "") user.password
                · rfl
                · exact absurd hv h4
              right
              constructor <;> simp [changePassword, h1, h2, h3, hfind, h4]

/-- C4 witness: provisioning one concrete account (flag set at creation),
one concrete successful rotation (single write of hash plus flag), and
one concrete failing rotation (store untouched). -/
theorem password_rotation_atomic_witness :
    (∃ u ∈ (createUser [] (some "N") (some "X@Y.z") "Gp1!aaaaaaaaaaaa" 3
        "id9" 7).2,
      u.mustChangePassword = true ∧
      (⟨⟨"id9", "N", "x@y.z", true, 7, 7, none⟩, "Gp1!aaaaaaaaaaaa"⟩ :
        CreateUserOk).user = toUserSafe u) ∧
    ((∃ user, findById
        [⟨"i1", "N", "a@b.c", ⟨0, "OldPassword123!"⟩, true, 0, 0, none⟩]
        ((some "i1").getD "") = some user ∧
      changePassword
        [⟨"i1", "N", "a@b.c", ⟨0, "OldPassword123!"⟩, true, 0, 0, none⟩]
        (some "i1") (some "OldPassword123!") (some "NewPassword456!") 9 =
        (.success,
         [⟨"i1", "N", "a@b.c", ⟨0, "OldPassword123!"⟩, true, 0, 0,
           none⟩].map (fun u => if u._id == user._id then
             { user with
               password := hashPassword ((some "NewPassword456!").getD "") 9,
               mustChangePassword := false } else u))) ∨
      ((changePassword
          [⟨"i1", "N", "a@b.c", ⟨0, "OldPassword123!"⟩, true, 0, 0, none⟩]
          (some "i1") (some "OldPassword123!") (some "NewPassword456!") 9).1
          ≠ .success ∧
       (changePassword
          [⟨"i1", "N", "a@b.c", ⟨0, "OldPassword123!"⟩, true, 0, 0, none⟩]
          (some "i1") (some "OldPassword123!") (some "NewPassword456!") 9).2
          = [⟨"i1", "N", "a@b.c", ⟨0, "OldPassword123!"⟩, true, 0, 0,
             none⟩])) ∧
    ((∃ user, findById
        [⟨"i1", "N", "a@b.c", ⟨0, "OldPassword123!"⟩, true, 0, 0, none⟩]
        ((some "i1").getD "") = some user ∧
      changePassword
        [⟨"i1", "N", "a@b.c", ⟨0, "OldPassword123!"⟩, true, 0, 0, none⟩]
        (some "i1") (some "wrong") (some "NewPassword456!") 9 =
        (.success,
         [⟨"i1", "N", "a@b.c", ⟨0, "OldPassword123!"⟩, true, 0, 0,
           none⟩].map (fun u => if u._id == user._id then
             { user with
               password := hashPassword ((some "NewPassword456!").getD "") 9,
               mustChangePassword := false } else u))) ∨
      ((changePassword
          [⟨"i1", "N", "a@b.c", ⟨0, "OldPassword123!"⟩, true, 0, 0, none⟩]
          (some "i1") (some "wrong") (some "NewPassword456!") 9).1
          ≠ .success ∧
       (changePassword
          [⟨"i1", "N", "a@b.c", ⟨0, "OldPassword123!"⟩, true, 0, 0, none⟩]
          (some "i1") (some "wrong") (some "NewPassword456!") 9).2
          = [⟨"i1", "N", "a@b.c", ⟨0, "OldPassword123!"⟩, true, 0, 0,
             none⟩])) :=
  ⟨password_rotation_atomic.1 [] (some "N") (some "X@Y.z") "Gp1!aaaaaaaaaaaa"
      3 "id9" 7 ⟨⟨"id9", "N", "x@y.z", true, 7, 7, none⟩, "Gp1!aaaaaaaaaaaa"⟩
      ((createUser [] (some "N") (some "X@Y.z") "Gp1!aaaaaaaaaaaa" 3 "id9"
        7).2) rfl,
   password_rotation_atomic.2
      [⟨"i1", "N", "a@b.c", ⟨0, "OldPassword123!"⟩, true, 0, 0, none⟩]
      (some "i1") (some "OldPassword123!") (some "NewPassword456!") 9,
   password_rotation_atomic.2
      [⟨"i1", "N", "a@b.c", ⟨0, "OldPassword123!"⟩, true, 0, 0, none⟩]
      (some "i1") (some "wrong") (some "NewPassword456!") 9⟩

/-- C8: every user object any operation returns is the password-free
`UserSafe` projection of a store record — for login, current identity,
user listing, get-by-id, creation and update — and the serialised fields
of such an object never include the `password` key, so no response body
carries a stored password hash. -/
theorem no_password_hash_in_responses :
    (∀ s : UserSafe, "password" ∉ (userSafeFields s).map Prod.fst) ∧
    (∀ store email pw now r store',
      login store email pw now = (.ok r, store') →
      ∃ u ∈ store', r.user = toUserSafe u) ∧
    (∀ store uid s, getCurrentUser store uid = .ok s →
      ∃ u ∈ store, s = toUserSafe u) ∧
    (∀ store page limit search s,
      s ∈ (getUsers store page limit search).users →
      ∃ u ∈ store, s = toUserSafe u) ∧
    (∀ store id s, getUserById store id = .ok s →
      ∃ u ∈ store, s = toUserSafe u) ∧
    (∀ store name email gp salt nid now r store',
      createUser store name email gp salt nid now = (.ok r, store') →
      ∃ u ∈ store', r.user = toUserSafe u) ∧
    (∀ store id name email s store',
      updateUser store id name email = (.ok s, store') →
      ∃ u ∈ store', s = toUserSafe u) := by
  refine ⟨userSafeFields_no_password, ?_, ?_, ?_, ?_, ?_, ?_⟩
  · intro store email pw now r store' h
    unfold login at h
    split at h
    · simp at h
    · split at h
      · simp at h
      · rename_i user hfind
        split at h
        · simp at h
        · simp only [Prod.mk.injEq, Except.ok.injEq] at h
          obtain ⟨hr, hs⟩ := h
          subst hr
          subst hs
          exact ⟨_, mem_map_update store user _
            (List.mem_of_find?_eq_some hfind), rfl⟩
  · intro store uid s h
    unfold getCurrentUser at h
    split at h
    · cases h
    · split at h
      · cases h
      · rename_i user hfind
        simp only [Except.ok.injEq] at h
        exact ⟨user, List.mem_of_find?_eq_some hfind, h.symm⟩
  · intro store page limit search s hs
    simp only [getUsers] at hs
    obtain ⟨u, hu, rfl⟩ := List.mem_map.mp hs
    have h1 : u ∈ sortByCreatedAtDesc (store.filter (matchesSearch search)) :=
      List.mem_of_mem_drop (List.mem_of_mem_take hu)
    have h2 : u ∈ store.filter (matchesSearch search) :=
      mem_sortByCreatedAtDesc.mp h1
    exact ⟨u, (List.mem_filter.mp h2).1, rfl⟩
  · intro store id s h
    unfold getUserById at h
    split at h
    · cases h
    · rename_i user hfind
      simp only [Except.ok.injEq] at h
      exact ⟨user, List.mem_of_find?_eq_some hfind, h.symm⟩
  · intro store name email gp salt nid now r store' h
    unfold createUser at h
    split at h
    · simp at h
    · split at h
      · simp at h
      · simp only [Prod.mk.injEq, Except.ok.injEq] at h
        obtain ⟨hr, hs⟩ := h
        subst hr
        subst hs
        exact ⟨_, List.mem_append_right store (List.mem_singleton.mpr rfl),
          rfl⟩
  · intro store id name email s store' h
    unfold updateUser at h
    split at h
    · simp at h
    · split at h
      · simp at h
      · rename_i user hfind
        split at h
        · simp at h
        · simp only [Prod.mk.injEq, Except.ok.injEq] at h
          obtain ⟨hr, hs⟩ := h
          subst hs
          exact ⟨_, mem_map_update store user _
            (List.mem_of_find?_eq_some hfind), hr.symm⟩

/-- C8 witness: each operation exercised on a concrete store with a
concrete successful response. -/
theorem no_password_hash_in_responses_witness :
    ("password" ∉ (userSafeFields
      (toUserSafe ⟨"i1", "N", "a@b.c", ⟨0, "x"⟩, false, 0, 0, none⟩)).map
        Prod.fst) ∧
    (∃ u ∈ (login [⟨"i1", "N", "a@b.c", ⟨0, "Password123!"⟩, false, 0, 0,
        none⟩] (some "a@b.c") (some "Password123!") 5).2,
      (⟨generateToken "i1" "a@b.c" 5,
        toUserSafe ⟨"i1", "N", "a@b.c", ⟨0, "Password123!"⟩, false, 0, 0,
          some 5⟩⟩ : LoginOk).user = toUserSafe u) ∧
    (∃ u ∈ [⟨"i1", "N", "a@b.c", ⟨0, "x"⟩, false, 0, 0, none⟩],
      toUserSafe (⟨"i1", "N", "a@b.c", ⟨0, "x"⟩, false, 0, 0, none⟩ :
        UserRecord) = toUserSafe u) ∧
    (∃ u ∈ [⟨"i1", "N", "a@b.c", ⟨0, "x"⟩, false, 0, 0, none⟩],
      toUserSafe (⟨"i1", "N", "a@b.c", ⟨0, "x"⟩, false, 0, 0, none⟩ :
        UserRecord) = toUserSafe u) ∧
    (∃ u ∈ [⟨"i1", "N", "a@b.c", ⟨0, "x"⟩, false, 0, 0, none⟩],
      toUserSafe (⟨"i1", "N", "a@b.c", ⟨0, "x"⟩, false, 0, 0, none⟩ :
        UserRecord) = toUserSafe u) ∧
    (∃ u ∈ (createUser [] (some "N") (some "X@Y.z") "Gp1!aaaaaaaaaaaa" 3
        "id9" 7).2,
      (⟨⟨"id9", "N", "x@y.z", true, 7, 7, none⟩, "Gp1!aaaaaaaaaaaa"⟩ :
        CreateUserOk).user = toUserSafe u) ∧
    (∃ u ∈ (updateUser [⟨"i1", "N", "a@b.c", ⟨0, "x"⟩, false, 0, 0, none⟩]
        "i1" (some "M") none).2,
      toUserSafe (⟨"i1", "M", "a@b.c", ⟨0, "x"⟩, false, 0, 0, none⟩ :
        UserRecord) = toUserSafe u) :=
  ⟨no_password_hash_in_responses.1
      (toUserSafe ⟨"i1", "N", "a@b.c", ⟨0, "x"⟩, false, 0, 0, none⟩),
   no_password_hash_in_responses.2.1
      [⟨"i1", "N", "a@b.c", ⟨0, "Password123!"⟩, false, 0, 0, none⟩]
      (some "a@b.c") (some "Password123!") 5
      ⟨generateToken "i1" "a@b.c" 5,
        toUserSafe ⟨"i1", "N", "a@b.c", ⟨0, "Password123!"⟩, false, 0, 0,
          some 5⟩⟩
      ((login [⟨"i1", "N", "a@b.c", ⟨0, "Password123!"⟩, false, 0, 0, none⟩]
        (some "a@b.c") (some "Password123!") 5).2) rfl,
   no_password_hash_in_responses.2.2.1
      [⟨"i1", "N", "a@b.c", ⟨0, "x"⟩, false, 0, 0, none⟩] (some "i1")
      (toUserSafe ⟨"i1", "N", "a@b.c", ⟨0, "x"⟩, false, 0, 0, none⟩) rfl,
   no_password_hash_in_responses.2.2.2.1
      [⟨"i1", "N", "a@b.c", ⟨0, "x"⟩, false, 0, 0, none⟩] 1 10 ""
      (toUserSafe ⟨"i1", "N", "a@b.c", ⟨0, "x"⟩, false, 0, 0, none⟩)
      (by simp [getUsers, sortByCreatedAtDesc, insertByCreatedAtDesc,
        matchesSearch]),
   no_password_hash_in_responses.2.2.2.2.1
      [⟨"i1", "N", "a@b.c", ⟨0, "x"⟩, false, 0, 0, none⟩] "i1"
      (toUserSafe ⟨"i1", "N", "a@b.c", ⟨0, "x"⟩, false, 0, 0, none⟩) rfl,
   no_password_hash_in_responses.2.2.2.2.2.1 [] (some "N") (some "X@Y.z")
      "Gp1!aaaaaaaaaaaa" 3 "id9" 7
      ⟨⟨"id9", "N", "x@y.z", true, 7, 7, none⟩, "Gp1!aaaaaaaaaaaa"⟩
      ((createUser [] (some "N") (some "X@Y.z") "Gp1!aaaaaaaaaaaa" 3 "id9"
        7).2) rfl,
   no_password_hash_in_responses.2.2.2.2.2.2
      [⟨"i1", "N", "a@b.c", ⟨0, "x"⟩, false, 0, 0, none⟩] "i1" (some "M")
      none
      (toUserSafe (⟨"i1", "M", "a@b.c", ⟨0, "x"⟩, false, 0, 0, none⟩ :
        UserRecord))
      ((updateUser [⟨"i1", "N", "a@b.c", ⟨0, "x"⟩, false, 0, 0, none⟩]
        "i1" (some "M") none).2) rfl⟩

end AssetBridge
